import Mathlib

/-
Verification of the chrysanthemum content-moderation engine.

The Rust sources are embedded shallowly:
* Rust strings (`&str`, `String`) become `RStr := List Char`; byte-oriented
  operations (`len`, `is_char_boundary`, slicing) are modelled through
  `Char.utf8Size`.
* Machine integers become `Nat`, with `% 256` at the points where the source
  performs an `as u8` cast and `min _ 255` where it uses `u8::saturating_add`;
  `Nat` subtraction models `u64::saturating_sub`.
* Discord snowflake identifiers (`Id<...Marker>`) become `Nat`.
* Fallible evaluation (`FilterResult = Result<(), String>`) becomes
  `Except RStr Unit`.
* Compiled user-supplied regular expressions (`Regex`, `RegexSet` values that
  live inside the configuration) are opaque objects in the source; they are
  modelled by their match semantics, i.e. as capture functions.  The fixed
  process-wide regexes (`link_regex`, `spoiler_regex`, `mention_regex`,
  `zalgo_regex`, `custom_emoji_regex`) are modelled concretely.
-/

set_option maxRecDepth 16000

namespace Chrys

/-- Rust string values, modelled as their sequence of Unicode scalar values. -/
abbrev RStr := List Char

/-- Coercion helper from a Lean string literal to `RStr`. -/
def str (s : String) : RStr := s.data

/-- Rust `str::len`: the length of the string in UTF-8 bytes. -/
def utf8Len (s : RStr) : Nat := (s.map Char.utf8Size).sum

/-! ## Confusable normalizer (`src/confusable.rs`) -/

/-- The confusable table, `src/confusable.rs` lines 5-41: a map from a single
code point to its canonical replacement sequence.  The backing dataset
`confusable_data.txt` is not part of `src/`, so the table is kept as an
explicit parameter `m` of the skeletonization function below. -/
abbrev ConfusableTable := List (Char × RStr)

/-- The `skeletonize` function of `src/confusable.rs` lines 44-71, over an
arbitrary confusable table `m`.  The source walks the characters of the
input and, for each one, appends its mapped replacement sequence when the
table contains it and the character itself otherwise (the `Cow`
borrow-until-first-confusable optimisation only avoids an allocation and
does not change the resulting string value). -/
def skeletonizeWith (m : ConfusableTable) (s : RStr) : RStr :=
  s.flatMap (fun c =>
    match m.lookup c with
    | some t => t
    | none => [c])

/-- Modelled from the spec: the contents of `confusable_data.txt` (absent from
`src/`).  Spec §8 scenario 2 pins down the entries used by its examples:
`skeletonize("ρɑɣρɑl") = "paypal"`. -/
def confusableMap : ConfusableTable :=
  [('ρ', str "p"), ('ɑ', str "a"), ('ɣ', str "y")]

/-- The `skeletonize` entry point (`src/confusable.rs` line 44) applied to the
spec-modelled table. -/
def skeletonize (s : RStr) : RStr := skeletonizeWith confusableMap s

/-- A confusable table is canonical when no character of any replacement
sequence is itself confusable (is a key of the table).  This is the property
expressed by spec §8's restriction to "inputs drawn from the mapped
alphabet": the skeleton alphabet is fixed by the table. -/
def CanonicalTable (m : ConfusableTable) : Prop :=
  ∀ p ∈ m, ∀ c ∈ p.2, m.lookup c = none

instance : DecidablePred CanonicalTable := fun m =>
  inferInstanceAs (Decidable (∀ p ∈ m, ∀ c ∈ p.2, m.lookup c = none))

theorem lookup_mem {m : ConfusableTable} {c : Char} {t : RStr}
    (h : m.lookup c = some t) : (c, t) ∈ m := by
  induction m with
  | nil => simp [List.lookup] at h
  | cons p ps ih =>
    obtain ⟨k, v⟩ := p
    simp only [List.lookup] at h
    cases hc : c == k with
    | true =>
      rw [hc] at h
      have hkv : v = t := by simpa using h
      have hck : c = k := by simpa using hc
      exact List.mem_cons.mpr (Or.inl (by simp [hck, hkv]))
    | false =>
      rw [hc] at h
      exact List.mem_cons_of_mem _ (ih h)

theorem skeletonizeWith_fixed {m : ConfusableTable} {t : RStr}
    (h : ∀ c ∈ t, m.lookup c = none) : skeletonizeWith m t = t := by
  induction t with
  | nil => rfl
  | cons c cs ih =>
    have hc : m.lookup c = none := h c (by simp)
    simp only [skeletonizeWith, List.flatMap] at *
    simp [hc]
    exact ih (fun x hx => h x (by simp [hx]))

/-- C9: `skeletonize` is idempotent: for inputs over the mapped alphabet (a
canonical table, in which no replacement sequence contains a confusable
character), skeletonizing twice equals skeletonizing once. -/
theorem skeletonize_idempotent (m : ConfusableTable) (hm : CanonicalTable m)
    (x : RStr) : skeletonizeWith m (skeletonizeWith m x) = skeletonizeWith m x := by
  induction x with
  | nil => rfl
  | cons c cs ih =>
    have hstep : skeletonizeWith m (c :: cs)
        = (match m.lookup c with
           | some t => t
           | none => [c]) ++ skeletonizeWith m cs := by
      simp [skeletonizeWith, List.flatMap]
    rw [hstep]
    have happ : ∀ a b : RStr,
        skeletonizeWith m (a ++ b) = skeletonizeWith m a ++ skeletonizeWith m b := by
      intro a b
      simp [skeletonizeWith]
    rw [happ, ih]
    congr 1
    cases hl : m.lookup c with
    | none =>
      simp [skeletonizeWith, List.flatMap, hl]
    | some t =>
      exact skeletonizeWith_fixed (fun ch hch => hm (c, t) (lookup_mem hl) ch hch)

/-- Witness for C9: the spec-modelled table is canonical and idempotence holds
at the spec's own example input `"ρɑɣρɑl"`. -/
theorem skeletonize_idempotent_witness :
    CanonicalTable confusableMap ∧
      skeletonizeWith confusableMap (skeletonizeWith confusableMap (str "ρɑɣρɑl"))
        = skeletonizeWith confusableMap (str "ρɑɣρɑl") :=
  ⟨by decide, skeletonize_idempotent confusableMap (by decide) (str "ρɑɣρɑl")⟩

/-! ## String operations used by the action synthesizer -/

/-- Rust `str::contains` for a literal pattern: some contiguous run of `s`
equals `pat`. -/
def containsSubstr (s pat : RStr) : Bool :=
  match s with
  | [] => pat.isPrefixOf []
  | c :: t => pat.isPrefixOf (c :: t) || containsSubstr t pat

/-- Rust `str::replacen(pat, repl, 1)`: replace the leftmost occurrence of
`pat` (if any) with `repl`. -/
def replaceFirst (s pat repl : RStr) : RStr :=
  match s with
  | [] => if pat.isPrefixOf [] then repl else []
  | c :: t =>
    if pat.isPrefixOf (c :: t) then repl ++ (c :: t).drop pat.length
    else c :: replaceFirst t pat repl

/-- Fuelled body of `replaceAll`; every step consumes at least one character
of `s`, so fuel equal to the initial length is never exhausted. -/
def replaceAllGo (fuel : Nat) (s pat repl : RStr) : RStr :=
  match fuel, s with
  | 0, rest => rest
  | _, [] => []
  | fuel + 1, c :: t =>
    if pat ≠ [] && pat.isPrefixOf (c :: t) then
      repl ++ replaceAllGo fuel ((c :: t).drop pat.length) pat repl
    else c :: replaceAllGo fuel t pat repl

/-- Rust `str::replace(pat, repl)`: replace every non-overlapping occurrence
of `pat`, scanning left to right. -/
def replaceAll (s pat repl : RStr) : RStr := replaceAllGo s.length s pat repl

/-- The longest prefix of `s` whose UTF-8 byte length is at most `i`.  This is
`&content[0..last_index]` in `format_message_preview` (message.rs lines
48-53), where `last_index` is found by decrementing from the byte budget
until `content.is_char_boundary(last_index)` holds: the char boundaries are
exactly the byte lengths of character prefixes, so the loop lands on the
longest character prefix fitting the budget. -/
def takeBytes (s : RStr) (i : Nat) : RStr :=
  match s with
  | [] => []
  | c :: t => if c.utf8Size ≤ i then c :: takeBytes t (i - c.utf8Size) else []

/-! ## Fixed extraction patterns (filter.rs lines 26-49)

The process-wide regexes are fixed in the source, so they are modelled as
concrete scanners.  Each scanner advances through the text attempting an
anchored match at every position, exactly like `Regex::find_iter` /
`captures_iter` (leftmost, non-overlapping matches); a fuel argument equal
to the initial length bounds the recursion and is never exhausted since
every step consumes at least one character. -/

/-- Character class `\s` of the regex crate: Unicode `White_Space`. -/
def isRegexWs (c : Char) : Bool :=
  [0x09, 0x0A, 0x0B, 0x0C, 0x0D, 0x20, 0x85, 0xA0, 0x1680,
   0x2000, 0x2001, 0x2002, 0x2003, 0x2004, 0x2005, 0x2006, 0x2007,
   0x2008, 0x2009, 0x200A, 0x2028, 0x2029, 0x202F, 0x205F, 0x3000].contains c.toNat

/-- Case-insensitive character comparison (the fixed patterns are built with
`case_insensitive(true)` and contain only ASCII letters). -/
def charCI (a b : Char) : Bool := a.toLower == b.toLower

/-- Strip the literal pattern `pat` from the front of `s`, case-insensitively.
Returns the remainder on success. -/
def stripCI (pat s : RStr) : Option RStr :=
  match pat, s with
  | [], rest => some rest
  | _ :: _, [] => none
  | p :: ps, c :: cs => if charCI p c then stripCI ps cs else none

/-- Split the leading run of domain characters (`[^/\s]+` of `link_regex`). -/
def takeDomain (s : RStr) : RStr × RStr :=
  match s with
  | [] => ([], [])
  | c :: t =>
    if c ≠ '/' && !isRegexWs c then
      let (d, r) := takeDomain t
      (c :: d, r)
    else ([], c :: t)

/-- Anchored match of `link_regex = https?://([^/\s]+)` (filter.rs lines
37-42, case-insensitive): returns the captured domain and the remainder
after the whole match.  The optional `s` is tried greedily and backtracked,
as the regex engine does. -/
def linkMatchAt (s : RStr) : Option (RStr × RStr) :=
  match stripCI (str "http") s with
  | none => none
  | some r1 =>
    let r2 : Option RStr :=
      match r1 with
      | c :: t =>
        if charCI 's' c then
          match stripCI (str "://") t with
          | some r => some r
          | none => stripCI (str "://") r1
        else stripCI (str "://") r1
      | [] => none
    match r2 with
    | none => none
    | some rest =>
      match takeDomain rest with
      | ([], _) => none
      | (d, r) => some (d, r)

/-- Fuelled scan for `link_regex.captures_iter`, collecting the domain
captures of the successive non-overlapping matches. -/
def scanLinks (fuel : Nat) (s : RStr) : List RStr :=
  match fuel, s with
  | 0, _ => []
  | _, [] => []
  | fuel + 1, c :: t =>
    match linkMatchAt (c :: t) with
    | some (d, rest) => d :: scanLinks fuel rest
    | none => scanLinks fuel t

/-- Domain captures of `link_regex` over the whole text. -/
def linkCaptures (s : RStr) : List RStr := scanLinks s.length s

/-- Split the leading run of non-`|` characters (`[^\|]*` of
`spoiler_regex`). -/
def takeNonPipe (s : RStr) : RStr × RStr :=
  match s with
  | [] => ([], [])
  | c :: t =>
    if c ≠ '|' then
      let (d, r) := takeNonPipe t
      (c :: d, r)
    else ([], c :: t)

/-- Anchored match of `spoiler_regex = \|\|[^\|]*\|\|` (filter.rs line 43):
returns the remainder after the match. -/
def spoilerMatchAt (s : RStr) : Option RStr :=
  match s with
  | '|' :: '|' :: t =>
    (match (takeNonPipe t).2 with
     | '|' :: '|' :: rest => some rest
     | _ => none)
  | _ => none

/-- Fuelled count of the matches of `spoiler_regex` (`find_iter().count()`). -/
def scanSpoilers (fuel : Nat) (s : RStr) : Nat :=
  match fuel, s with
  | 0, _ => 0
  | _, [] => 0
  | fuel + 1, c :: t =>
    match spoilerMatchAt (c :: t) with
    | some rest => scanSpoilers fuel rest + 1
    | none => scanSpoilers fuel t

/-- Number of `||spoiler||` spans in the text. -/
def spoilerMatches (s : RStr) : Nat := scanSpoilers s.length s

/-- Split the leading run of decimal digits (`\d+`; the ASCII digits are the
only ones the surrounding patterns can produce). -/
def takeDigits (s : RStr) : RStr × RStr :=
  match s with
  | [] => ([], [])
  | c :: t =>
    if c.isDigit then
      let (d, r) := takeDigits t
      (c :: d, r)
    else ([], c :: t)

/-- Anchored match of `mention_regex = <@[!&]?\d+>` (filter.rs line 49):
returns the remainder after the match. -/
def mentionMatchAt (s : RStr) : Option RStr :=
  match s with
  | '<' :: '@' :: t =>
    let t2 :=
      match t with
      | c :: u => if c = '!' ∨ c = '&' then u else t
      | [] => t
    (match takeDigits t2 with
     | ([], _) => none
     | (_ :: _, '>' :: rest) => some rest
     | (_ :: _, _) => none)
  | _ => none

/-- Fuelled count of the matches of `mention_regex`. -/
def scanMentions (fuel : Nat) (s : RStr) : Nat :=
  match fuel, s with
  | 0, _ => 0
  | _, [] => 0
  | fuel + 1, c :: t =>
    match mentionMatchAt (c :: t) with
    | some rest => scanMentions fuel rest + 1
    | none => scanMentions fuel t

/-- Number of user/role mentions in the text. -/
def mentionMatches (s : RStr) : Nat := scanMentions s.length s

/-- Split the leading run of non-`:` characters (`[^:]+` of
`custom_emoji_regex`). -/
def takeNonColon (s : RStr) : RStr × RStr :=
  match s with
  | [] => ([], [])
  | c :: t =>
    if c ≠ ':' then
      let (d, r) := takeNonColon t
      (c :: d, r)
    else ([], c :: t)

/-- Anchored match of `custom_emoji_regex = <a?:([^:]+):(\d+)>` (filter.rs
line 48): returns the name capture (group 1) and the remainder. -/
def customEmojiMatchAt (s : RStr) : Option (RStr × RStr) :=
  match s with
  | '<' :: t =>
    let t2 : Option RStr :=
      match t with
      | 'a' :: ':' :: u => some u
      | ':' :: u => some u
      | _ => none
    (match t2 with
     | none => none
     | some u =>
       match takeNonColon u with
       | ([], _) => none
       | (name, ':' :: v) =>
         (match takeDigits v with
          | ([], _) => none
          | (_ :: _, '>' :: rest) => some (name, rest)
          | (_ :: _, _) => none)
       | (_, _) => none)
  | _ => none

/-- Fuelled scan collecting the name captures of `custom_emoji_regex`. -/
def scanCustomEmoji (fuel : Nat) (s : RStr) : List RStr :=
  match fuel, s with
  | 0, _ => []
  | _, [] => []
  | fuel + 1, c :: t =>
    match customEmojiMatchAt (c :: t) with
    | some (name, rest) => name :: scanCustomEmoji fuel rest
    | none => scanCustomEmoji fuel t

/-- Name captures of the custom-emoji extraction pattern over the text. -/
def customEmojiCaptures (s : RStr) : List RStr := scanCustomEmoji s.length s

/-- Character class `\w` (restricted to the ASCII range the invite codes
use). -/
def isWordChar (c : Char) : Bool := c.isAlphanum || c = '_'

/-- Split the leading run of word characters (`\w+` of `invite_regex`). -/
def takeWord (s : RStr) : RStr × RStr :=
  match s with
  | [] => ([], [])
  | c :: t =>
    if isWordChar c then
      let (d, r) := takeWord t
      (c :: d, r)
    else ([], c :: t)

/-- Anchored match of `invite_regex = discord.gg/(\w+)` (filter.rs lines
31-36, case-insensitive; the unescaped `.` matches any character): returns
the captured invite code and the remainder. -/
def inviteMatchAt (s : RStr) : Option (RStr × RStr) :=
  match stripCI (str "discord") s with
  | none => none
  | some r1 =>
    match r1 with
    | _ :: r2 =>
      (match stripCI (str "gg/") r2 with
       | none => none
       | some r3 =>
         match takeWord r3 with
         | ([], _) => none
         | (code, rest) => some (code, rest))
    | [] => none

/-- Fuelled scan collecting the invite-code captures of `invite_regex`. -/
def scanInvites (fuel : Nat) (s : RStr) : List RStr :=
  match fuel, s with
  | 0, _ => []
  | _, [] => []
  | fuel + 1, c :: t =>
    match inviteMatchAt (c :: t) with
    | some (code, rest) => code :: scanInvites fuel rest
    | none => scanInvites fuel t

/-- Invite-code captures of `invite_regex` over the text. -/
def inviteCaptures (s : RStr) : List RStr := scanInvites s.length s

/-- The characters of `zalgo_regex` (filter.rs lines 26-30): an alternation
of individual combining marks. -/
def zalgoChars : List Char :=
  [0x0303, 0x035F, 0x034F, 0x0327, 0x031F, 0x0353, 0x032F, 0x0318,
   0x0359, 0x0354].map Char.ofNat

/-! ## Data model (config.rs, model.rs) -/

/-- An attachment; only the `content_type` field participates in filtering
(`twilight_model::channel::Attachment`). -/
structure Attachment where
  content_type : Option RStr
deriving DecidableEq

/-- A message sticker; only `id` and `name` participate in filtering. -/
structure MessageSticker where
  id : Nat
  name : RStr
deriving DecidableEq

/-- The read-only message view, model.rs lines 11-22.  `timestamp` is held in
microseconds, the unit `SpamRecord::from_message` converts to via
`as_micros`. -/
structure MessageInfo where
  author_is_bot : Bool
  id : Nat
  author_id : Nat
  channel_id : Nat
  guild_id : Option Nat
  author_roles : List Nat
  content : RStr
  timestamp : Nat
  attachments : List Attachment
  stickers : List MessageSticker
deriving DecidableEq

/-- Allow/deny mode of a list rule, config.rs lines 111-117. -/
inductive FilterMode where
  | allowList
  | denyList
deriving DecidableEq

/-- Scoping, config.rs lines 119-127. -/
structure Scoping where
  exclude_channels : Option (List Nat) := none
  include_channels : Option (List Nat) := none
  exclude_roles : Option (List Nat) := none
deriving DecidableEq

/-- Scope check, filter.rs lines 79-113. -/
def Scoping.isIncluded (self : Scoping) (channel : Nat) (author_roles : List Nat) : Bool :=
  if (match self.include_channels with
      | some l => l.all (fun c => c ≠ channel)
      | none => false) then false
  else if (match self.exclude_channels with
      | some l => l.any (fun c => c = channel)
      | none => false) then false
  else if (match self.exclude_roles with
      | some l => l.any (fun r => author_roles.contains r)
      | none => false) then false
  else true

/-- A compiled configuration regex (an opaque `Regex` value in the source),
modelled by its capture semantics: the capture the rule extracts on a
match (group 1 for `Words`, group 0 for the substring-style rules), `none`
when the regex does not match. -/
abbrev Matcher := RStr → Option RStr

/-- Message filter rules, config.rs lines 129-179. -/
inductive MessageFilterRule where
  | words (words : Matcher)
  | substring (substrings : Matcher)
  | regex (regexes : List (RStr × (RStr → Bool)))
  | zalgo
  | mimeType (mode : FilterMode) (types : List RStr) (allow_unknown : Bool)
  | invite (mode : FilterMode) (invites : List RStr)
  | link (mode : FilterMode) (domains : List RStr)
  | stickerId (mode : FilterMode) (stickers : List Nat)
  | stickerName (stickers : Matcher)
  | emojiName (names : Matcher)

/-- Filter actions, config.rs lines 95-109. -/
inductive MessageFilterAction where
  | delete
  | sendMessage (channel_id : Nat) (content : RStr) (requires_armed : Bool)
  | sendLog (channel_id : Nat)
deriving DecidableEq

/-- A message filter, config.rs lines 203-212. -/
structure MessageFilter where
  name : RStr
  rules : List MessageFilterRule
  scoping : Option Scoping
  actions : Option (List MessageFilterAction)

/-- Spam thresholds, config.rs lines 181-201 (`u8` thresholds, `u16`
interval in seconds). -/
structure SpamFilter where
  emoji : Option Nat := none
  duplicates : Option Nat := none
  links : Option Nat := none
  attachments : Option Nat := none
  spoilers : Option Nat := none
  mentions : Option Nat := none
  interval : Nat := 0
  actions : Option (List MessageFilterAction) := none
  scoping : Option Scoping := none

/-- Result type of rule evaluation, filter.rs line 51. -/
abbrev FilterResult := Except RStr Unit

/-- Rust `Result::is_err`. -/
def FilterResult.isErr (r : FilterResult) : Bool :=
  match r with
  | .error _ => true
  | .ok _ => false

/-- `Option::or` (used as `a.as_ref().or(b)` / `a.as_deref().or(b)` on
configuration fields). -/
def optionOr {α : Type} (a b : Option α) : Option α :=
  match a with
  | some x => some x
  | none => b

/-! ## Pattern rule evaluator (filter.rs lines 53-285) -/

/-- The generic allow/deny comparison `filter_values`, filter.rs lines 53-77,
instantiated at a value type with its `Display` rendering `fmt`. -/
def filterValues {α : Type} [DecidableEq α] (fmt : α → RStr) (mode : FilterMode)
    (context : RStr) (values : List α) (fvals : List α) : FilterResult :=
  let result : Option RStr :=
    match mode with
    | .allowList =>
      (values.find? (fun v => !(fvals.any (fun f => f = v)))).map
        (fun v => str "contains unallowed " ++ context ++ str " `" ++ fmt v ++ str "`")
    | .denyList =>
      (values.find? (fun v => fvals.any (fun f => f = v))).map
        (fun v => str "contains denied " ++ context ++ str " `" ++ fmt v ++ str "`")
  match result with
  | some e => .error e
  | none => .ok ()

/-- Text-level rule evaluation, `MessageFilterRule::filter_text`, filter.rs
lines 134-244. -/
def MessageFilterRule.filterText (self : MessageFilterRule) (text : RStr) : FilterResult :=
  match self with
  | .words wordsP =>
    (match wordsP (skeletonize text) with
     | some cap => .error (str "contains word `" ++ cap ++ str "`")
     | none =>
       match wordsP text with
       | some cap => .error (str "contains word `" ++ cap ++ str "`")
       | none => .ok ())
  | .substring substrings =>
    (match substrings (skeletonize text) with
     | some cap => .error (str "contains substring `" ++ cap ++ str "`")
     | none =>
       match substrings text with
       | some cap => .error (str "contains substring `" ++ cap ++ str "`")
       | none => .ok ())
  | .regex regexes =>
    let raw_match := regexes.findIdx? (fun p => p.2 text)
    let skeleton_match := regexes.findIdx? (fun p => p.2 (skeletonize text))
    (match optionOr raw_match skeleton_match with
     | some pattern_index =>
       (match regexes[pattern_index]? with
        | some pattern => .error (str "matches regex `" ++ pattern.1 ++ str "`")
        | none => .ok ())
     | none => .ok ())
  | .zalgo =>
    if text.any (fun c => zalgoChars.contains c) then .error (str "contains zalgo")
    else .ok ()
  | .invite mode invites =>
    filterValues id mode (str "invite") (inviteCaptures text) invites
  | .link mode domains =>
    let link_domains := (linkCaptures text).filter (fun v => v ≠ str "discord.gg")
    let result : Option RStr :=
      match mode with
      | .allowList =>
        (link_domains.find? (fun v =>
            !(domains.any (fun f => f = v || v = str "www." ++ f)))).map
          (fun v => str "contains unallowed domain `" ++ v ++ str "`")
      | .denyList =>
        (link_domains.find? (fun v =>
            domains.any (fun f => f = v || v = str "www." ++ f))).map
          (fun v => str "contains denied domain `" ++ v ++ str "`")
    (match result with
     | some e => .error e
     | none => .ok ())
  | .emojiName names =>
    (match (customEmojiCaptures text).findSome? (fun nm => names nm) with
     | some m => .error (str "contains emoji with denied name substring `" ++ m ++ str "`")
     | none => .ok ())
  | _ => .ok ()

/-- Message-level rule evaluation, `MessageFilterRule::filter_message`,
filter.rs lines 246-284. -/
def MessageFilterRule.filterMessage (self : MessageFilterRule) (message : MessageInfo) : FilterResult :=
  match self with
  | .mimeType mode types allow_unknown =>
    if message.attachments.any (fun a => a.content_type.isNone) && !allow_unknown then
      .error (str "unknown content type for attachment")
    else
      filterValues id mode (str "content type")
        (message.attachments.filterMap (fun a => a.content_type)) types
  | .stickerId mode stickers =>
    filterValues (fun n => str (toString n)) mode (str "sticker")
      (message.stickers.map (fun s => s.id)) stickers
  | .stickerName stickers =>
    (match message.stickers.findSome? (fun s => stickers s.name) with
     | some m => .error (str "contains sticker with denied name substring `" ++ m ++ str "`")
     | none => .ok ())
  | _ => self.filterText message.content

/-- Fail-fast AND over a filter's rule sequence,
`MessageFilter::filter_message`, filter.rs lines 116-122. -/
def MessageFilter.filterMessage (self : MessageFilter) (message : MessageInfo) : FilterResult :=
  ((self.rules.map (fun f => f.filterMessage message)).find?
    (fun r => r.isErr)).getD (.ok ())

/-! ## Action synthesizer (message.rs lines 14-105)

The concrete `MessageAction` enum lives in the historical `action.rs`
variant that is not part of `src/`; its constructors and fields are
reconstructed from their construction sites in
`map_filter_action_to_action` (message.rs lines 65-105). -/

/-- Concrete, event-bound message actions.  The source names the target
channel field `to`, a reserved word here, rendered `toChannel`. -/
inductive MessageAction where
  | delete (message_id : Nat) (channel_id : Nat)
  | sendLog (toChannel : Nat) (filter_name : RStr) (message_channel : Nat)
      (content : RStr) (filter_reason : RStr) (author : Nat) (context : RStr)
  | sendMessage (toChannel : Nat) (content : RStr) (requires_armed : Bool)
deriving DecidableEq

/-- The pipeline's terminal output on a match, message.rs lines 16-21. -/
structure MessageFilterFailure where
  actions : List MessageAction
  filter_name : RStr
  context : RStr
deriving DecidableEq

/-- The `$MESSAGE_PREVIEW` substitution, `format_message_preview`, message.rs
lines 40-63.  `MAX_CHARS = 2_000`, and the byte budget left for the preview
is `MAX_CHARS - format_string.len() - "$MESSAGE_PREVIEW".len()`; both
subtractions are `usize` subtractions that the source assumes do not
underflow (the theorems below restrict to that regime, where they agree
with `Nat` subtraction). -/
def formatMessagePreview (format_string : RStr) (content : RStr) : RStr :=
  if containsSubstr format_string (str "$MESSAGE_PREVIEW") then
    let available_length :=
      2000 - utf8Len format_string - utf8Len (str "$MESSAGE_PREVIEW")
    let truncated_content :=
      if utf8Len content > available_length then
        takeBytes content (available_length - utf8Len (str "…")) ++ str "…"
      else content
    replaceFirst format_string (str "$MESSAGE_PREVIEW") truncated_content
  else format_string

/-- Action synthesis, `map_filter_action_to_action`, message.rs lines 65-105:
`$USER_ID` is replaced (by `Id::to_string`, the bare decimal user
identifier) first, then `$FILTER_REASON`, then `$MESSAGE_PREVIEW`. -/
def mapFilterActionToAction (filter_action : MessageFilterAction)
    (message : MessageInfo) (filter_name : RStr) (filter_reason : RStr)
    (context : RStr) : MessageAction :=
  match filter_action with
  | .delete => .delete message.id message.channel_id
  | .sendLog log_channel =>
    .sendLog log_channel filter_name message.channel_id message.content
      filter_reason message.author_id context
  | .sendMessage channel_id content requires_armed =>
    let formatted_content := replaceAll content (str "$USER_ID") (str (toString message.author_id))
    let formatted_content := replaceAll formatted_content (str "$FILTER_REASON") filter_reason
    let formatted_content := formatMessagePreview formatted_content message.content
    .sendMessage channel_id formatted_content requires_armed

/-! ## Filter resolution pipeline (message.rs lines 107-148) -/

/-- The scope gate of the pipeline loop (message.rs lines 116-120): a filter
is skipped when its effective scoping (its own, else the community
default) excludes the event's channel/author. -/
def filterSkipped (filter : MessageFilter) (default_scoping : Option Scoping)
    (message : MessageInfo) : Bool :=
  match optionOr filter.scoping default_scoping with
  | some scoping => !(scoping.isIncluded message.channel_id message.author_roles)
  | none => false

/-- The message pipeline `filter_message`, message.rs lines 107-148: walk the
filters in order, skip out-of-scope ones, and stop at the first whose
rules fail, resolving its actions (own, else default, else none). -/
def filterMessage (filters : List MessageFilter) (default_scoping : Option Scoping)
    (default_actions : Option (List MessageFilterAction)) (message : MessageInfo)
    (context : RStr) : Except MessageFilterFailure Unit :=
  match filters with
  | [] => .ok ()
  | filter :: rest =>
    if filterSkipped filter default_scoping message then
      filterMessage rest default_scoping default_actions message context
    else
      match filter.filterMessage message with
      | .error reason =>
        .error
          { filter_name := filter.name
            actions :=
              ((optionOr filter.actions default_actions).getD []).map
                (fun a => mapFilterActionToAction a message filter.name reason context)
            context := context }
      | .ok _ => filterMessage rest default_scoping default_actions message context

/-! ## Spam window tracker (filter.rs lines 368-531) -/

/-- A per-message spam snapshot, filter.rs lines 368-377 (`u8` counters,
`i64` microsecond timestamp). -/
structure SpamRecord where
  content : RStr
  emoji : Nat
  links : Nat
  attachments : Nat
  spoilers : Nat
  mentions : Nat
  sent_at : Nat
deriving DecidableEq

/-- `u8::saturating_add`. -/
def satAdd8 (a b : Nat) : Nat := min (a + b) 255

/-- `SpamRecord::from_message`, filter.rs lines 380-399.  Every counter is
stored through an `as u8` cast (truncation modulo 256).  The
`emoji_matches` argument stands for `emoji_regex().find_iter(content).count()`:
the Unicode `Emoji` property tables backing that one pattern are not part
of `src/`, so the match count is a parameter; the other counts are
computed by the concrete scanners above. -/
def SpamRecord.fromMessage (message : MessageInfo) (emoji_matches : Nat) : SpamRecord :=
  { content := message.content
    emoji := emoji_matches % 256
    links := (linkCaptures message.content).length % 256
    attachments := message.attachments.length % 256
    spoilers := spoilerMatches message.content % 256
    mentions := mentionMatches message.content % 256
    sent_at := message.timestamp }

/-- The fold of `exceeds_spam_thresholds` (filter.rs lines 409-442): per
metric saturating sums over the window plus the current record, and the
duplicate count seeded at 1 because the current record is always a
duplicate of itself. -/
def spamSums (history : List SpamRecord) (current_record : SpamRecord) :
    Nat × Nat × Nat × Nat × Nat × Nat :=
  history.foldl
    (fun t record =>
      (satAdd8 t.1 record.emoji,
       satAdd8 t.2.1 record.links,
       satAdd8 t.2.2.1 record.attachments,
       satAdd8 t.2.2.2.1 record.spoilers,
       satAdd8 t.2.2.2.2.1 record.mentions,
       satAdd8 t.2.2.2.2.2 (if record.content = current_record.content then 1 else 0)))
    (current_record.emoji, current_record.links, current_record.attachments,
     current_record.spoilers, current_record.mentions, 1)

/-- Threshold comparison, `exceeds_spam_thresholds`, filter.rs lines 404-479.
Each `config.X.unwrap()` is guarded by `config.X.is_some()` and is modelled
by `getD 0`. -/
def exceedsSpamThresholds (history : List SpamRecord) (current_record : SpamRecord)
    (config : SpamFilter) : FilterResult :=
  let s := spamSums history current_record
  let emoji_sum := s.1
  let link_sum := s.2.1
  let attachment_sum := s.2.2.1
  let spoiler_sum := s.2.2.2.1
  let mention_sum := s.2.2.2.2.1
  let matching_duplicates := s.2.2.2.2.2
  if config.emoji.isSome ∧ emoji_sum > config.emoji.getD 0 ∧ current_record.emoji > 0 then
    .error (str "sent too many emoji")
  else if config.links.isSome ∧ link_sum > config.links.getD 0 ∧ current_record.links > 0 then
    .error (str "sent too many links")
  else if config.attachments.isSome ∧ attachment_sum > config.attachments.getD 0 ∧
      current_record.attachments > 0 then
    .error (str "sent too many attachments")
  else if config.spoilers.isSome ∧ spoiler_sum > config.spoilers.getD 0 ∧
      current_record.spoilers > 0 then
    .error (str "sent too many spoilers")
  else if config.mentions.isSome ∧ mention_sum > config.mentions.getD 0 ∧
      current_record.mentions > 0 then
    .error (str "sent too many mentions")
  else if config.duplicates.isSome ∧ matching_duplicates > config.duplicates.getD 0 then
    .error (str "sent too many duplicate messages")
  else
    .ok ()

/-- The front-pruning loop of `check_spam_record`, filter.rs lines 506-520:
pop records from the front of the queue while
`now.saturating_sub(sent_at) > interval * 1_000_000` (`Nat` subtraction is
the saturating subtraction). -/
def pruneOldRecords (now : Nat) (interval : Nat) (queue : List SpamRecord) :
    List SpamRecord :=
  match queue with
  | [] => []
  | front :: rest =>
    if now - front.sent_at > interval * 1000000 then pruneOldRecords now interval rest
    else front :: rest

/-- The per-author-queue body of `check_spam_record`, filter.rs lines 481-531:
prune old records, evaluate the thresholds against the pruned window, and
push the new record unconditionally.  (Locating the author's queue in the
shared map under the read/write locks is concurrency plumbing with no
effect on the queue transformation and is not embedded; `new_spam_record`
is `SpamRecord::from_message(message)`.)  Returns the filter result
together with the updated queue. -/
def checkSpamRecord (new_spam_record : SpamRecord) (queue : List SpamRecord)
    (config : SpamFilter) (now : Nat) : FilterResult × List SpamRecord :=
  let pruned := pruneOldRecords now config.interval queue
  (exceedsSpamThresholds pruned new_spam_record config, pruned ++ [new_spam_record])

/-! ## Reaction filtering (config.rs lines 214-242, filter.rs lines 297-366) -/

/-- Discord reaction emoji (`twilight_model`'s `ReactionType`): either a
built-in unicode emoji or a guild's custom emoji. -/
inductive ReactionType where
  | custom (animated : Bool) (id : Nat) (name : Option RStr)
  | unicode (name : RStr)
deriving DecidableEq

/-- Reaction filter rules, config.rs lines 214-234.  `customName` carries the
compiled substring regex, modelled as its `is_match` semantics. -/
inductive ReactionFilterRule where
  | default (emoji : List RStr) (mode : FilterMode)
  | customId (emoji : List Nat) (mode : FilterMode)
  | customName (names : RStr → Bool)

/-- Reaction rule evaluation, `ReactionFilterRule::filter_reaction`,
filter.rs lines 298-365. -/
def ReactionFilterRule.filterReaction (self : ReactionFilterRule)
    (reaction : ReactionType) : FilterResult :=
  match self with
  | .default filtered_emoji mode =>
    (match reaction with
     | .unicode name =>
       (match mode with
        | .allowList =>
          if !(filtered_emoji.contains name) then
            .error (str "reacted with unallowed emoji `" ++ name ++ str "`")
          else .ok ()
        | .denyList =>
          if filtered_emoji.contains name then
            .error (str "reacted with denied emoji `" ++ name ++ str "`")
          else .ok ())
     | _ => .ok ())
  | .customId filtered_emoji mode =>
    (match reaction with
     | .custom _ id _ =>
       (match mode with
        | .allowList =>
          if !(filtered_emoji.contains id) then
            .error (str "reacted with unallowed emoji `" ++ str (toString id) ++ str "`")
          else .ok ()
        | .denyList =>
          if filtered_emoji.contains id then
            .error (str "reacted with denied emoji `" ++ str (toString id) ++ str "`")
          else .ok ())
     | _ => .ok ())
  | .customName names =>
    (match reaction with
     | .custom _ _ (some name) =>
       if names name then
         .error (str "reacted with denied emoji name `" ++ name ++ str "`")
       else .ok ()
     | _ => .ok ())

/-! ## Reaction pipeline (model.rs lines 25-33, reaction.rs lines 7-118)

`reaction.rs` is a later historical variant: it imports
`config::MessageFilterAction` but matches six variants (the three of the
`config.rs` in `src/` plus `Ban`, `Kick`, `Timeout`), and the concrete
`ReactionAction` enum it builds lives outside `src/`.  Both types are
reconstructed from their match arms and construction sites in
reaction.rs lines 13-84. -/

/-- The read-only reaction view, model.rs lines 25-33. -/
structure ReactionInfo where
  author_is_bot : Bool
  author_roles : List Nat
  author_id : Nat
  message_id : Nat
  channel_id : Nat
  guild_id : Option Nat
  reaction : ReactionType
deriving DecidableEq

/-- The `MessageFilterAction` variant set that `reaction.rs` compiles
against: `config.rs`'s three variants plus the `Ban`/`Kick`/`Timeout`
variants matched at reaction.rs lines 39-73. -/
inductive MessageFilterActionFull where
  | delete
  | sendMessage (channel_id : Nat) (content : RStr) (requires_armed : Bool)
  | sendLog (channel_id : Nat)
  | ban (delete_message_seconds : Nat) (reason : RStr)
  | kick (reason : RStr)
  | timeout (duration : Nat) (reason : RStr)
deriving DecidableEq

/-- Concrete, event-bound reaction actions, reconstructed from their
construction sites in reaction.rs lines 19-83 (the source names the
target channel field `to`, a reserved word here, rendered `toChannel`). -/
inductive ReactionAction where
  | delete (message_id : Nat) (channel_id : Nat) (reaction : ReactionType)
  | sendMessage (toChannel : Nat) (content : RStr) (requires_armed : Bool)
  | ban (user_id : Nat) (guild_id : Option Nat) (delete_message_seconds : Nat)
      (reason : RStr)
  | kick (user_id : Nat) (guild_id : Option Nat) (reason : RStr)
  | timeout (user_id : Nat) (guild_id : Option Nat) (reason : RStr) (duration : Nat)
  | sendLog (toChannel : Nat) (filter_name : RStr) (message : Nat) (channel : Nat)
      (author : Nat) (filter_reason : RStr) (reaction : ReactionType)
deriving DecidableEq

/-- A reaction filter, config.rs lines 236-242, with the action list typed as
the variant set `reaction.rs` compiles against. -/
structure ReactionFilter where
  name : RStr
  rules : List ReactionFilterRule
  scoping : Option Scoping
  actions : Option (List MessageFilterActionFull)

/-- The pipeline's terminal output on a reaction match, reaction.rs
lines 7-11. -/
structure ReactionFilterFailure where
  filter_name : RStr
  actions : List ReactionAction
deriving DecidableEq

/-- Reaction action synthesis, `map_filter_action_to_action` of reaction.rs
lines 13-84.  `$USER_ID` is again `Id::to_string`; `Ban`/`Kick`/`Timeout`
apply the `$FILTER_REASON` substitution twice, as the source does
(reaction.rs lines 43-44, 54-55, 64-65 — the second pass is a no-op). -/
def reactionMapFilterActionToAction (filter_action : MessageFilterActionFull)
    (reaction : ReactionInfo) (filter_name : RStr) (filter_reason : RStr) :
    ReactionAction :=
  match filter_action with
  | .delete => .delete reaction.message_id reaction.channel_id reaction.reaction
  | .sendMessage channel_id content requires_armed =>
    let formatted_content := replaceAll content (str "$USER_ID") (str (toString reaction.author_id))
    let formatted_content := replaceAll formatted_content (str "$FILTER_REASON") filter_reason
    .sendMessage channel_id formatted_content requires_armed
  | .ban delete_message_seconds reason =>
    let formatted_reason := replaceAll reason (str "$FILTER_REASON") filter_reason
    let formatted_reason := replaceAll formatted_reason (str "$FILTER_REASON") filter_reason
    .ban reaction.author_id reaction.guild_id delete_message_seconds formatted_reason
  | .kick reason =>
    let formatted_reason := replaceAll reason (str "$FILTER_REASON") filter_reason
    let formatted_reason := replaceAll formatted_reason (str "$FILTER_REASON") filter_reason
    .kick reaction.author_id reaction.guild_id formatted_reason
  | .timeout duration reason =>
    let formatted_reason := replaceAll reason (str "$FILTER_REASON") filter_reason
    let formatted_reason := replaceAll formatted_reason (str "$FILTER_REASON") filter_reason
    .timeout reaction.author_id reaction.guild_id formatted_reason duration
  | .sendLog channel_id =>
    .sendLog channel_id filter_name reaction.message_id reaction.channel_id
      reaction.author_id filter_reason reaction.reaction

/-- Fail-fast AND over a reaction filter's rule sequence,
`ReactionFilter::filter_reaction`, filter.rs lines 288-294. -/
def ReactionFilter.filterReaction (self : ReactionFilter) (reaction : ReactionType) :
    FilterResult :=
  ((self.rules.map (fun f => f.filterReaction reaction)).find?
    (fun r => r.isErr)).getD (.ok ())

/-- The scope gate of the reaction pipeline loop (reaction.rs lines 94-98). -/
def reactionFilterSkipped (filter : ReactionFilter) (default_scoping : Option Scoping)
    (reaction : ReactionInfo) : Bool :=
  match optionOr filter.scoping default_scoping with
  | some scoping => !(scoping.isIncluded reaction.channel_id reaction.author_roles)
  | none => false

/-- The reaction pipeline `filter_reaction`, reaction.rs lines 86-118: same
precedence model as the message pipeline (first in-scope failing filter
wins; actions resolve own, else default, else none), without a spam
stage. -/
def filterReaction (filters : List ReactionFilter) (default_scoping : Option Scoping)
    (default_actions : Option (List MessageFilterActionFull))
    (reaction : ReactionInfo) : Except ReactionFilterFailure Unit :=
  match filters with
  | [] => .ok ()
  | filter :: rest =>
    if reactionFilterSkipped filter default_scoping reaction then
      filterReaction rest default_scoping default_actions reaction
    else
      match filter.filterReaction reaction.reaction with
      | .error reason =>
        .error
          { filter_name := filter.name
            actions :=
              ((optionOr filter.actions default_actions).getD []).map
                (fun a => reactionMapFilterActionToAction a reaction filter.name reason) }
      | .ok _ => filterReaction rest default_scoping default_actions reaction

/-! ## Concrete fixtures and decidability helpers -/

instance {e a : Type} [DecidableEq e] [DecidableEq a] : DecidableEq (Except e a) := fun x y =>
  match x, y with
  | .ok u, .ok v =>
    if h : u = v then .isTrue (by rw [h]) else .isFalse (fun he => h (Except.ok.inj he))
  | .ok _, .error _ => .isFalse (fun h => Except.noConfusion h)
  | .error _, .ok _ => .isFalse (fun h => Except.noConfusion h)
  | .error u, .error v =>
    if h : u = v then .isTrue (by rw [h]) else .isFalse (fun he => h (Except.error.inj he))

/-- The test message fixture of model.rs lines 59-72 (`MESSAGE_ID = 1`,
`CHANNEL_ID = 2`, `USER_ID = 3`, `GUILD_ID = 4`, timestamp 100 s). -/
def testMessage (content : RStr) : MessageInfo :=
  { author_is_bot := false
    id := 1
    author_id := 3
    channel_id := 2
    guild_id := some 4
    author_roles := []
    content := content
    timestamp := 100000000
    attachments := []
    stickers := [] }

/-- Recognizer for the concrete `Delete` action. -/
def isDeleteAction (a : MessageAction) : Bool :=
  match a with
  | .delete _ _ => true
  | _ => false

/-- Recognizer for the configured `Delete` filter action. -/
def isDeleteFilterAction (a : MessageFilterAction) : Bool :=
  match a with
  | .delete => true
  | _ => false

/-! ## C10: reaction rules only constrain reactions of their own kind -/

/-- C10: a `Default` (unicode-emoji) rule passes every custom-emoji reaction,
and `CustomId` / `CustomName` rules pass every unicode-emoji reaction,
in either allow-list or deny-list mode. -/
theorem reaction_rule_kind_separation (emoji : List RStr) (ids : List Nat)
    (names : RStr → Bool) (m1 m2 : FilterMode) (animated : Bool) (id : Nat)
    (cname : Option RStr) (uname : RStr) :
    (ReactionFilterRule.default emoji m1).filterReaction (.custom animated id cname) = .ok () ∧
    (ReactionFilterRule.customId ids m2).filterReaction (.unicode uname) = .ok () ∧
    (ReactionFilterRule.customName names).filterReaction (.unicode uname) = .ok () :=
  ⟨rfl, rfl, rfl⟩

/-! ## C8: MimeType treats an absent content-type as a hard failure -/

/-- C8: with `allow_unknown` unset, any attachment with an absent
content-type makes the `MimeType` rule fail with exactly
`unknown content type for attachment`, independent of the mode and of the
configured list. -/
theorem mimetype_unknown_hard_failure (mode : FilterMode) (types : List RStr)
    (message : MessageInfo) (h : ∃ a ∈ message.attachments, a.content_type = none) :
    (MessageFilterRule.mimeType mode types false).filterMessage message
      = .error (str "unknown content type for attachment") := by
  have hany : message.attachments.any (fun a => a.content_type.isNone) = true := by
    obtain ⟨a, ha, hn⟩ := h
    exact List.any_eq_true.mpr ⟨a, ha, by simp [hn]⟩
  simp [MessageFilterRule.filterMessage, hany]

/-- The spec §8 scenario-6 message: a single attachment with no
content-type. -/
def missingContentTypeMessage : MessageInfo :=
  { testMessage (str "asdf") with attachments := [⟨none⟩] }

/-- Witness for C8 at the spec's scenario 6:
`MimeType(deny, ["image/png"], allow_unknown=false)`. -/
theorem mimetype_unknown_hard_failure_witness :
    (∃ a ∈ missingContentTypeMessage.attachments, a.content_type = none) ∧
    (MessageFilterRule.mimeType .denyList [str "image/png"] false).filterMessage
        missingContentTypeMessage
      = .error (str "unknown content type for attachment") :=
  ⟨by decide,
   mimetype_unknown_hard_failure .denyList [str "image/png"] missingContentTypeMessage
     (by decide)⟩

/-! ## C3: Link rule, `www.` equivalence and the reported domain -/

/-- The spec §8 scenario-5 text. -/
def linkScenarioText : RStr := str "see https://www.example.com/x"

/-- Counterexample for C3: the deny-list failure reason does not name the
listed domain `example.com`; `filter_values`-style reporting formats the
observed value `v`, which is the extracted `www.example.com`
(filter.rs line 223). -/
theorem link_reported_domain_counterexample :
    (MessageFilterRule.link .denyList [str "example.com"]).filterText linkScenarioText
      ≠ .error (str "contains denied domain `example.com`") := by
  decide

/-- C3 amended: a listed domain also matches its `www.`-prefixed observed
form (so `example.com` catches `https://www.example.com/x`), and the
deny-list failure reason names the domain as it appeared in the text:
`contains denied domain `www.example.com``. -/
theorem link_www_prefix_equivalence :
    (MessageFilterRule.link .denyList [str "example.com"]).filterText linkScenarioText
      = .error (str "contains denied domain `www.example.com`") := by
  rfl

/-! ## C4: spam counters are stored through a truncating cast -/

/-- A message event carrying 256 attachments (none of the other counted
features). -/
def manyAttachmentsMessage : MessageInfo :=
  { testMessage [] with attachments := List.replicate 256 ⟨none⟩ }

/-- C4 (code bug): `SpamRecord::from_message` stores the attachment count of
a 256-attachment message as 0 — the `as u8` cast truncates modulo 256
instead of saturating at 255 as the adjacent comment (filter.rs lines
392-394) and the spec describe. -/
theorem spam_counter_cast_truncates :
    manyAttachmentsMessage.attachments.length = 256 ∧
    (SpamRecord.fromMessage manyAttachmentsMessage 0).attachments = 0 :=
  ⟨rfl, rfl⟩

/-! ## C2: the resolved action list can contain several Delete actions -/

/-- A filter whose configured actions contain `Delete` twice. -/
def doubleDeleteFilter : MessageFilter :=
  { name := str "first"
    rules := [.zalgo]
    scoping := none
    actions := some [.delete, .delete] }

/-- A message containing a combining mark matched by `zalgo_regex`. -/
def zalgoMessage : MessageInfo := testMessage [Char.ofNat 0x0303]

/-- Counterexample for C2: a filter configured with two `Delete` actions
resolves, on a matching message, to an action list containing `Delete`
twice — more than one. -/
theorem duplicate_delete_counterexample :
    filterMessage [doubleDeleteFilter] none none zalgoMessage (str "message create")
      = .error
          { actions := [.delete 1 2, .delete 1 2]
            filter_name := str "first"
            context := str "message create" } ∧
    ¬ (([MessageAction.delete 1 2, MessageAction.delete 1 2].countP isDeleteAction) ≤ 1) :=
  ⟨rfl, by decide⟩

/-- Recognizer for the concrete reaction `Delete` action. -/
def isDeleteReactionAction (a : ReactionAction) : Bool :=
  match a with
  | .delete _ _ _ => true
  | _ => false

/-- Recognizer for the configured `Delete` action in the six-variant set. -/
def isDeleteFilterActionFull (a : MessageFilterActionFull) : Bool :=
  match a with
  | .delete => true
  | _ => false

theorem countP_map_filter_action (actions : List MessageFilterAction)
    (msg : MessageInfo) (name reason ctx : RStr) :
    ((actions.map (fun a => mapFilterActionToAction a msg name reason ctx)).countP isDeleteAction)
      = actions.countP isDeleteFilterAction := by
  induction actions with
  | nil => rfl
  | cons a t ih =>
    simp only [List.map_cons, List.countP_cons, ih]
    cases a <;> simp [mapFilterActionToAction, isDeleteAction, isDeleteFilterAction]

theorem countP_map_reaction_filter_action (actions : List MessageFilterActionFull)
    (rxn : ReactionInfo) (name reason : RStr) :
    ((actions.map (fun a => reactionMapFilterActionToAction a rxn name reason)).countP
        isDeleteReactionAction)
      = actions.countP isDeleteFilterActionFull := by
  induction actions with
  | nil => rfl
  | cons a t ih =>
    simp only [List.map_cons, List.countP_cons, ih]
    cases a <;>
      simp [reactionMapFilterActionToAction, isDeleteReactionAction, isDeleteFilterActionFull]

/-- C2 amended: for any event, message or reaction, the failing pipeline's
resolved action list is exactly the winning filter's resolved configured
list (its own actions, else the defaults, else none) mapped one-to-one
into concrete actions, and so contains exactly one concrete `Delete` per
configured `Delete` — possibly more than one; deduplication is the
caller's task. -/
theorem resolved_delete_count :
    (∀ (filters : List MessageFilter) (dS : Option Scoping)
        (dA : Option (List MessageFilterAction)) (msg : MessageInfo) (ctx : RStr)
        (fl : MessageFilterFailure),
      filterMessage filters dS dA msg ctx = .error fl →
      ∃ f ∈ filters, f.name = fl.filter_name ∧
        ∃ reason,
          fl.actions = ((optionOr f.actions dA).getD []).map
              (fun a => mapFilterActionToAction a msg f.name reason ctx) ∧
          fl.actions.countP isDeleteAction
            = ((optionOr f.actions dA).getD []).countP isDeleteFilterAction) ∧
    (∀ (filters : List ReactionFilter) (dS : Option Scoping)
        (dA : Option (List MessageFilterActionFull)) (rxn : ReactionInfo)
        (fl : ReactionFilterFailure),
      filterReaction filters dS dA rxn = .error fl →
      ∃ f ∈ filters, f.name = fl.filter_name ∧
        ∃ reason,
          fl.actions = ((optionOr f.actions dA).getD []).map
              (fun a => reactionMapFilterActionToAction a rxn f.name reason) ∧
          fl.actions.countP isDeleteReactionAction
            = ((optionOr f.actions dA).getD []).countP isDeleteFilterActionFull) := by
  constructor
  · intro filters dS dA msg ctx fl h
    induction filters with
    | nil => simp [filterMessage] at h
    | cons f rest ih =>
      unfold filterMessage at h
      split at h
      · obtain ⟨g, hg, e⟩ := ih h
        exact ⟨g, List.mem_cons_of_mem _ hg, e⟩
      · split at h
        · rename_i reason heq
          obtain rfl : fl = _ := (Except.error.inj h).symm
          exact ⟨f, List.mem_cons_self _ _, rfl, reason, rfl,
            countP_map_filter_action _ _ _ _ _⟩
        · obtain ⟨g, hg, e⟩ := ih h
          exact ⟨g, List.mem_cons_of_mem _ hg, e⟩
  · intro filters dS dA rxn fl h
    induction filters with
    | nil => simp [filterReaction] at h
    | cons f rest ih =>
      unfold filterReaction at h
      split at h
      · obtain ⟨g, hg, e⟩ := ih h
        exact ⟨g, List.mem_cons_of_mem _ hg, e⟩
      · split at h
        · rename_i reason heq
          obtain rfl : fl = _ := (Except.error.inj h).symm
          exact ⟨f, List.mem_cons_self _ _, rfl, reason, rfl,
            countP_map_reaction_filter_action _ _ _ _⟩
        · obtain ⟨g, hg, e⟩ := ih h
          exact ⟨g, List.mem_cons_of_mem _ hg, e⟩

/-- A reaction filter whose configured actions contain `Delete` twice. -/
def doubleDeleteReactionFilter : ReactionFilter :=
  { name := str "first"
    rules := [.default [str "🍆"] .denyList]
    scoping := none
    actions := some [.delete, .delete] }

/-- The denied-emoji reaction fixture (model.rs lines 80-92). -/
def eggplantReaction : ReactionInfo :=
  { author_is_bot := false
    author_roles := []
    author_id := 3
    message_id := 1
    channel_id := 2
    guild_id := some 4
    reaction := .unicode (str "🍆") }

/-- Witness for C2 amended, at double-`Delete` configurations of both
pipelines. -/
theorem resolved_delete_count_witness :
    (∃ f ∈ [doubleDeleteFilter],
      f.name = (MessageFilterFailure.mk
          [MessageAction.delete 1 2, MessageAction.delete 1 2]
          (str "first") (str "message create")).filter_name ∧
      ∃ reason,
        (MessageFilterFailure.mk [MessageAction.delete 1 2, MessageAction.delete 1 2]
            (str "first") (str "message create")).actions
          = ((optionOr f.actions none).getD []).map
              (fun a => mapFilterActionToAction a zalgoMessage f.name reason
                (str "message create")) ∧
        (MessageFilterFailure.mk [MessageAction.delete 1 2, MessageAction.delete 1 2]
            (str "first") (str "message create")).actions.countP isDeleteAction
          = ((optionOr f.actions none).getD []).countP isDeleteFilterAction) ∧
    (∃ f ∈ [doubleDeleteReactionFilter],
      f.name = (ReactionFilterFailure.mk (str "first")
          [ReactionAction.delete 1 2 (.unicode (str "🍆")),
           ReactionAction.delete 1 2 (.unicode (str "🍆"))]).filter_name ∧
      ∃ reason,
        (ReactionFilterFailure.mk (str "first")
            [ReactionAction.delete 1 2 (.unicode (str "🍆")),
             ReactionAction.delete 1 2 (.unicode (str "🍆"))]).actions
          = ((optionOr f.actions none).getD []).map
              (fun a => reactionMapFilterActionToAction a eggplantReaction f.name reason) ∧
        (ReactionFilterFailure.mk (str "first")
            [ReactionAction.delete 1 2 (.unicode (str "🍆")),
             ReactionAction.delete 1 2 (.unicode (str "🍆"))]).actions.countP
            isDeleteReactionAction
          = ((optionOr f.actions none).getD []).countP isDeleteFilterActionFull) :=
  ⟨resolved_delete_count.1 [doubleDeleteFilter] none none zalgoMessage
      (str "message create")
      (MessageFilterFailure.mk [MessageAction.delete 1 2, MessageAction.delete 1 2]
        (str "first") (str "message create")) rfl,
   resolved_delete_count.2 [doubleDeleteReactionFilter] none none eggplantReaction
      (ReactionFilterFailure.mk (str "first")
        [ReactionAction.delete 1 2 (.unicode (str "🍆")),
         ReactionAction.delete 1 2 (.unicode (str "🍆"))]) rfl⟩

/-! ## C5: window pruning and unconditional append -/

theorem pruneOldRecords_age_bound (now interval : Nat) (queue : List SpamRecord)
    (hsort : queue.Pairwise (fun a b => a.sent_at ≤ b.sent_at)) :
    ∀ r ∈ pruneOldRecords now interval queue, now - r.sent_at ≤ interval * 1000000 := by
  induction queue with
  | nil => intro r hr; simp [pruneOldRecords] at hr
  | cons f rest ih =>
    rw [List.pairwise_cons] at hsort
    obtain ⟨hf, hrest⟩ := hsort
    unfold pruneOldRecords
    split
    · exact ih hrest
    · rename_i hkeep
      intro r hr
      rcases List.mem_cons.mp hr with rfl | hr2
      · omega
      · have := hf r hr2
        omega

/-- C5: on a chronological (oldest-first) author queue, every record that
survives pruning — and hence participates in the threshold sums — is at
most `interval` seconds old, and the current record is appended to the
queue unconditionally, with the same updated queue whether the check
passes or fails. -/
theorem spam_window_prune_and_append (new_spam_record : SpamRecord)
    (queue : List SpamRecord) (config : SpamFilter) (now : Nat)
    (hsort : queue.Pairwise (fun a b => a.sent_at ≤ b.sent_at)) :
    (∀ r ∈ pruneOldRecords now config.interval queue,
        now - r.sent_at ≤ config.interval * 1000000) ∧
    checkSpamRecord new_spam_record queue config now
      = (exceedsSpamThresholds (pruneOldRecords now config.interval queue) new_spam_record config,
         pruneOldRecords now config.interval queue ++ [new_spam_record]) :=
  ⟨pruneOldRecords_age_bound now config.interval queue hsort, rfl⟩

/-- A record fixture for the spam-window witness. -/
def spamRecordAt (content : RStr) (sent_at : Nat) : SpamRecord :=
  { content := content, emoji := 0, links := 0, attachments := 0, spoilers := 0,
    mentions := 0, sent_at := sent_at }

/-- Witness for C5: a sorted queue with one expired (sent 5 s) and one live
(sent 45 s) record, `interval = 30`, `now = 60 s`. -/
theorem spam_window_prune_and_append_witness :
    ([spamRecordAt (str "a") 5000000,
      spamRecordAt (str "b") 45000000].Pairwise (fun a b => a.sent_at ≤ b.sent_at)) ∧
    ((∀ r ∈ pruneOldRecords 60000000 30
          [spamRecordAt (str "a") 5000000, spamRecordAt (str "b") 45000000],
        60000000 - r.sent_at ≤ 30 * 1000000) ∧
      checkSpamRecord (spamRecordAt (str "b") 59000000)
          [spamRecordAt (str "a") 5000000, spamRecordAt (str "b") 45000000]
          { duplicates := some 1, interval := 30 } 60000000
        = (exceedsSpamThresholds
            (pruneOldRecords 60000000 30
              [spamRecordAt (str "a") 5000000, spamRecordAt (str "b") 45000000])
            (spamRecordAt (str "b") 59000000) { duplicates := some 1, interval := 30 },
           pruneOldRecords 60000000 30
              [spamRecordAt (str "a") 5000000, spamRecordAt (str "b") 45000000]
            ++ [spamRecordAt (str "b") 59000000])) :=
  ⟨by decide,
   spam_window_prune_and_append (spamRecordAt (str "b") 59000000)
     [spamRecordAt (str "a") 5000000, spamRecordAt (str "b") 45000000]
     { duplicates := some 1, interval := 30 } 60000000 (by decide)⟩

/-! ## C6: threshold priority order and current-record gating -/

/-- Modelled from the spec (§4.4), the refinement side for C6: the threshold
checks in the fixed priority order emoji, links, attachments, spoilers,
mentions, duplicates; the first violated one yields the failure reason.
A non-duplicate threshold is violated only if the windowed sum exceeds it
and the current record contributed a non-zero amount to that metric;
a duplicate threshold is violated whenever its count (seeded at 1 by
`spamSums`) exceeds it. -/
def firstViolatedThreshold (config : SpamFilter)
    (sums : Nat × Nat × Nat × Nat × Nat × Nat) (current_record : SpamRecord) :
    Option RStr :=
  (([(decide (config.emoji.isSome ∧ sums.1 > config.emoji.getD 0 ∧
        current_record.emoji > 0), str "sent too many emoji"),
     (decide (config.links.isSome ∧ sums.2.1 > config.links.getD 0 ∧
        current_record.links > 0), str "sent too many links"),
     (decide (config.attachments.isSome ∧ sums.2.2.1 > config.attachments.getD 0 ∧
        current_record.attachments > 0), str "sent too many attachments"),
     (decide (config.spoilers.isSome ∧ sums.2.2.2.1 > config.spoilers.getD 0 ∧
        current_record.spoilers > 0), str "sent too many spoilers"),
     (decide (config.mentions.isSome ∧ sums.2.2.2.2.1 > config.mentions.getD 0 ∧
        current_record.mentions > 0), str "sent too many mentions"),
     (decide (config.duplicates.isSome ∧ sums.2.2.2.2.2 > config.duplicates.getD 0),
      str "sent too many duplicate messages")] : List (Bool × RStr)).find?
    (fun p => p.1)).map (fun p => p.2)

/-- C6: `exceeds_spam_thresholds` returns the reason of the first violated
threshold in the fixed priority order (emoji, links, attachments,
spoilers, mentions, duplicates), with the current-record non-zero gating
on every metric except duplicates, and passes when none is violated. -/
theorem spam_threshold_priority (history : List SpamRecord)
    (current_record : SpamRecord) (config : SpamFilter) :
    exceedsSpamThresholds history current_record config
      = match firstViolatedThreshold config (spamSums history current_record)
            current_record with
        | some reason => .error reason
        | none => .ok () := by
  simp only [exceedsSpamThresholds, firstViolatedThreshold]
  by_cases h1 : config.emoji.isSome ∧
      (spamSums history current_record).1 > config.emoji.getD 0 ∧
      current_record.emoji > 0
  · simp [List.find?, h1]
  · simp only [List.find?, decide_eq_false h1, if_neg h1]
    by_cases h2 : config.links.isSome ∧
        (spamSums history current_record).2.1 > config.links.getD 0 ∧
        current_record.links > 0
    · simp [List.find?, h2]
    · simp only [List.find?, decide_eq_false h2, if_neg h2]
      by_cases h3 : config.attachments.isSome ∧
          (spamSums history current_record).2.2.1 > config.attachments.getD 0 ∧
          current_record.attachments > 0
      · simp [List.find?, h3]
      · simp only [List.find?, decide_eq_false h3, if_neg h3]
        by_cases h4 : config.spoilers.isSome ∧
            (spamSums history current_record).2.2.2.1 > config.spoilers.getD 0 ∧
            current_record.spoilers > 0
        · simp [List.find?, h4]
        · simp only [List.find?, decide_eq_false h4, if_neg h4]
          by_cases h5 : config.mentions.isSome ∧
              (spamSums history current_record).2.2.2.2.1 > config.mentions.getD 0 ∧
              current_record.mentions > 0
          · simp [List.find?, h5]
          · simp only [List.find?, decide_eq_false h5, if_neg h5]
            by_cases h6 : config.duplicates.isSome ∧
                (spamSums history current_record).2.2.2.2.2 > config.duplicates.getD 0
            · simp [List.find?, h6]
            · simp [List.find?, decide_eq_false h6, if_neg h6]

/-! ## C7: the first in-scope failing filter determines the outcome -/

/-- C7: filters are evaluated strictly in configuration order; if every
earlier filter is either out of scope or passes, and `f` is in scope and
fails with `reason`, the pipeline returns `f`'s failure — its name and its
resolved actions (its own list if present, else the community default,
else none) — without consulting any later filter (the conclusion does not
depend on `post`). -/
theorem first_failing_filter_wins (pre post : List MessageFilter) (f : MessageFilter)
    (dS : Option Scoping) (dA : Option (List MessageFilterAction)) (msg : MessageInfo)
    (ctx reason : RStr)
    (hpre : ∀ g ∈ pre, filterSkipped g dS msg = true ∨ g.filterMessage msg = .ok ())
    (hscope : filterSkipped f dS msg = false)
    (hfail : f.filterMessage msg = .error reason) :
    filterMessage (pre ++ f :: post) dS dA msg ctx
      = .error
          { filter_name := f.name
            actions := ((optionOr f.actions dA).getD []).map
                (fun a => mapFilterActionToAction a msg f.name reason ctx)
            context := ctx } := by
  induction pre with
  | nil =>
    simp only [List.nil_append]
    unfold filterMessage
    rw [hscope, hfail]
    simp
  | cons g gs ih =>
    have hg := hpre g (List.mem_cons_self g gs)
    have hrest := fun x hx => hpre x (List.mem_cons_of_mem g hx)
    simp only [List.cons_append]
    unfold filterMessage
    rcases hg with hskip | hok
    · rw [hskip]
      simpa using ih hrest
    · by_cases hsk : filterSkipped g dS msg = true
      · rw [hsk]
        simpa using ih hrest
      · rw [Bool.not_eq_true] at hsk
        rw [hsk, hok]
        simpa using ih hrest

/-- A filter scoped to channel 99, out of scope for the fixture's channel 2. -/
def outOfScopeFilter : MessageFilter :=
  { name := str "zeroth"
    rules := [.zalgo]
    scoping := some { include_channels := some [99] }
    actions := some [.delete] }

/-- A zalgo filter with no actions of its own, so the default actions apply. -/
def zalgoFilter : MessageFilter :=
  { name := str "first"
    rules := [.zalgo]
    scoping := none
    actions := none }

/-- Witness for C7: the out-of-scope first filter is skipped, the second
fails on a zalgo message, and its resolved actions fall back to the
community default. -/
theorem first_failing_filter_wins_witness :
    (∀ g ∈ [outOfScopeFilter],
        filterSkipped g none zalgoMessage = true ∨
        g.filterMessage zalgoMessage = .ok ()) ∧
    filterSkipped zalgoFilter none zalgoMessage = false ∧
    zalgoFilter.filterMessage zalgoMessage = .error (str "contains zalgo") ∧
    filterMessage [outOfScopeFilter, zalgoFilter] none (some [.delete]) zalgoMessage
        (str "message create")
      = .error
          { filter_name := str "first"
            actions := [.delete 1 2]
            context := str "message create" } :=
  ⟨by decide, by decide, rfl,
   first_failing_filter_wins [outOfScopeFilter] [] zalgoFilter none (some [.delete])
     zalgoMessage (str "message create") (str "contains zalgo")
     (by decide) (by decide) rfl⟩

/-! ## C1: SendMessage template substitution and preview truncation -/

theorem utf8Len_append (a b : RStr) : utf8Len (a ++ b) = utf8Len a + utf8Len b := by
  simp [utf8Len]

theorem utf8Len_cons (c : Char) (t : RStr) :
    utf8Len (c :: t) = c.utf8Size + utf8Len t := by
  simp [utf8Len]

theorem utf8Len_replaceFirst (s pat repl : RStr) (h : containsSubstr s pat = true) :
    utf8Len (replaceFirst s pat repl) + utf8Len pat = utf8Len s + utf8Len repl := by
  induction s with
  | nil =>
    have hp : pat.isPrefixOf ([] : RStr) = true := by simpa [containsSubstr] using h
    have hpe : pat = [] := by
      cases pat with
      | nil => rfl
      | cons c t => simp [List.isPrefixOf] at hp
    subst hpe
    simp [replaceFirst, utf8Len]
  | cons c t ih =>
    by_cases hp : pat.isPrefixOf (c :: t) = true
    · have heq : pat ++ (c :: t).drop pat.length = c :: t :=
        List.prefix_iff_eq_append.mp (List.isPrefixOf_iff_prefix.mp hp)
      have hlen : utf8Len pat + utf8Len ((c :: t).drop pat.length) = utf8Len (c :: t) := by
        rw [← utf8Len_append, heq]
      simp only [replaceFirst, hp, if_true, utf8Len_append]
      omega
    · have hb : pat.isPrefixOf (c :: t) = false := Bool.eq_false_iff.mpr hp
      have hct : containsSubstr t pat = true := by
        have := h
        simp only [containsSubstr, hb, Bool.false_or] at this
        exact this
      have := ih hct
      simp only [replaceFirst, hb, Bool.false_eq_true, if_false, utf8Len_cons]
      omega

theorem utf8Len_takeBytes (s : RStr) (i : Nat) : utf8Len (takeBytes s i) ≤ i := by
  induction s generalizing i with
  | nil => simp [takeBytes, utf8Len]
  | cons c t ih =>
    unfold takeBytes
    split
    · rename_i hle
      have := ih (i - c.utf8Size)
      rw [utf8Len_cons]
      omega
    · simp [utf8Len]

theorem takeBytes_prefix (s : RStr) (i : Nat) : takeBytes s i <+: s := by
  induction s generalizing i with
  | nil => simp [takeBytes]
  | cons c t ih =>
    unfold takeBytes
    split
    · exact List.cons_prefix_cons.mpr ⟨rfl, ih (i - c.utf8Size)⟩
    · exact List.nil_prefix

/-- Statement abbreviation for C1: the first two template substitutions of
`map_filter_action_to_action` (message.rs lines 93-94), in their source
order — `$USER_ID` first, `$FILTER_REASON` second. -/
def substituteUserAndReason (content : RStr) (author_id : Nat) (filter_reason : RStr) : RStr :=
  replaceAll (replaceAll content (str "$USER_ID") (str (toString author_id)))
    (str "$FILTER_REASON") filter_reason

/-- Counterexample for C1: `$USER_ID` is replaced by the author's bare
decimal identifier (`Id::to_string`), producing `3` for user 3, not the
author's mention `<@3>` (the mention rendering used elsewhere, e.g. by
`clean_mentions` via `Mention::mention`); the repo's own pipeline test
(message.rs line 282) expects the bare `3`. -/
theorem user_id_substitution_counterexample :
    mapFilterActionToAction (.sendMessage 1 (str "$USER_ID") false)
        (testMessage (str "hi")) (str "first") (str "reason") (str "message create")
      = .sendMessage 1 (str "3") false ∧
    str "3" ≠ str "<@3>" :=
  ⟨rfl, by decide⟩

/-- C1 amended: for a SendMessage action whose substituted template still
contains `$MESSAGE_PREVIEW` and is at most 1981 bytes (leaving room for
the 16-byte token and the 3-byte ellipsis), the synthesized content is
the template with `$USER_ID` replaced by the author's bare user-ID
string, then `$FILTER_REASON` by the reason, then (last) the first
`$MESSAGE_PREVIEW` by a preview of the original content; the resulting
message stays under the 2000-byte ceiling, and the preview is either the
whole content or a character-boundary prefix of it with an ellipsis
appended.  The byte restriction is part of the amended claim: for longer
substituted templates the source's `usize` subtraction at message.rs
line 46 underflows — a panic in debug builds, and in release builds a
wrap that skips truncation and lets the message exceed the ceiling — so
no ceiling guarantee exists there. -/
theorem sendmessage_template_substitution (template : RStr) (msg : MessageInfo)
    (channel : Nat) (armed : Bool) (filter_name reason ctx : RStr)
    (hctn : containsSubstr (substituteUserAndReason template msg.author_id reason)
        (str "$MESSAGE_PREVIEW") = true)
    (hlen : utf8Len (substituteUserAndReason template msg.author_id reason) ≤ 1981) :
    ∃ preview : RStr,
      mapFilterActionToAction (.sendMessage channel template armed) msg filter_name
          reason ctx
        = .sendMessage channel
            (replaceFirst (substituteUserAndReason template msg.author_id reason)
              (str "$MESSAGE_PREVIEW") preview)
            armed ∧
      utf8Len (replaceFirst (substituteUserAndReason template msg.author_id reason)
          (str "$MESSAGE_PREVIEW") preview) < 2000 ∧
      (preview = msg.content ∨
        ∃ p, p <+: msg.content ∧ preview = p ++ str "…") := by
  have h16 : utf8Len (str "$MESSAGE_PREVIEW") = 16 := rfl
  have h3 : utf8Len (str "…") = 3 := rfl
  simp only [substituteUserAndReason] at hctn hlen ⊢
  by_cases hbig : utf8Len msg.content >
      2000 - utf8Len (replaceAll (replaceAll template (str "$USER_ID")
        (str (toString msg.author_id))) (str "$FILTER_REASON") reason) - 16
  · refine ⟨takeBytes msg.content
        (2000 - utf8Len (replaceAll (replaceAll template (str "$USER_ID")
          (str (toString msg.author_id))) (str "$FILTER_REASON") reason) - 16 - 3)
        ++ str "…", ?_, ?_,
      Or.inr ⟨_, takeBytes_prefix _ _, rfl⟩⟩
    · simp only [mapFilterActionToAction, formatMessagePreview, h16, h3]
      rw [if_pos hctn, if_pos hbig]
    · have hrep := utf8Len_replaceFirst
        (replaceAll (replaceAll template (str "$USER_ID")
          (str (toString msg.author_id))) (str "$FILTER_REASON") reason)
        (str "$MESSAGE_PREVIEW")
        (takeBytes msg.content
          (2000 - utf8Len (replaceAll (replaceAll template (str "$USER_ID")
            (str (toString msg.author_id))) (str "$FILTER_REASON") reason) - 16 - 3)
          ++ str "…") hctn
      have htb := utf8Len_takeBytes msg.content
        (2000 - utf8Len (replaceAll (replaceAll template (str "$USER_ID")
          (str (toString msg.author_id))) (str "$FILTER_REASON") reason) - 16 - 3)
      rw [utf8Len_append, h16, h3] at hrep
      omega
  · refine ⟨msg.content, ?_, ?_, Or.inl rfl⟩
    · simp only [mapFilterActionToAction, formatMessagePreview, h16, h3]
      rw [if_pos hctn, if_neg hbig]
    · have hrep := utf8Len_replaceFirst
        (replaceAll (replaceAll template (str "$USER_ID")
          (str (toString msg.author_id))) (str "$FILTER_REASON") reason)
        (str "$MESSAGE_PREVIEW") msg.content hctn
      rw [h16] at hrep
      rw [Nat.not_lt] at hbig
      omega

/-- Witness for C1 amended: the bare `$MESSAGE_PREVIEW` template over a short
message. -/
theorem sendmessage_template_substitution_witness :
    (containsSubstr
        (substituteUserAndReason (str "$MESSAGE_PREVIEW") 3 (str "reason"))
        (str "$MESSAGE_PREVIEW") = true) ∧
    (utf8Len (substituteUserAndReason (str "$MESSAGE_PREVIEW") 3 (str "reason")) ≤ 1981) ∧
    ∃ preview : RStr,
      mapFilterActionToAction (.sendMessage 1 (str "$MESSAGE_PREVIEW") false)
          (testMessage (str "hello")) (str "first") (str "reason") (str "message create")
        = .sendMessage 1
            (replaceFirst
              (substituteUserAndReason (str "$MESSAGE_PREVIEW")
                (testMessage (str "hello")).author_id (str "reason"))
              (str "$MESSAGE_PREVIEW") preview)
            false ∧
      utf8Len (replaceFirst
          (substituteUserAndReason (str "$MESSAGE_PREVIEW")
            (testMessage (str "hello")).author_id (str "reason"))
          (str "$MESSAGE_PREVIEW") preview) < 2000 ∧
      (preview = (testMessage (str "hello")).content ∨
        ∃ p, p <+: (testMessage (str "hello")).content ∧ preview = p ++ str "…") :=
  ⟨by decide, by decide,
   sendmessage_template_substitution (str "$MESSAGE_PREVIEW") (testMessage (str "hello"))
     1 false (str "first") (str "reason") (str "message create") (by decide) (by decide)⟩

end Chrys
